import Mathlib

/-! Shallow embedding of the NVMe-oF gateway agent reconciliation core
(src/nvmeof/NVMeofGw.cc): the map-diff algorithm and retry loops of
`NVMeofGw::handle_nvmeof_gw_map`, the `get_gw_state` lookup helper, and the
beacon construction / availability derivation of `NVMeofGw::send_beacon`.
Machine maps (`std::map`) are embedded as association lists looked up by
`mapFind`; the two gRPC collaborator calls are embedded as event traces
parameterised by the number of failures each infinite retry loop observes
before its first success. -/

/-- Gateway identifier (C++ `GW_ID_T`): the gateway's string name. -/
abbrev GW_ID_T := String

/-- Subsystem identifier (NQN), a string. -/
abbrev NQN_T := String

/-- Group key (C++ `GROUP_KEY`): the `(pool, group)` pair built by
`std::make_pair(pool, group)`. -/
abbrev GROUP_KEY := String × String

/-- Gateway availability reported in a beacon (C++ `GW_AVAILABILITY_E`). -/
inductive GW_AVAILABILITY_E where
  | GW_CREATED
  | GW_AVAILABLE
  | GW_UNAVAILABLE
deriving DecidableEq

/-- Modelled from the spec: the raw per-ANA-group state enumeration
(C++ `GW_EXPORTED_STATES_PER_AGROUP_E`, whose definition is in a header not
under src/) is represented by its underlying integer value; the single
designated exported-optimized enumerator is `GW_EXPORTED_OPTIMIZED_STATE`,
and every other integer is some other raw state. -/
def GW_EXPORTED_OPTIMIZED_STATE : Nat := 0

/-- Per-subsystem state inside a gateway's map entry: the ordered sequence of
raw per-ANA-group states (`sub.ana_state`), indexed 0-based. -/
structure SubsystemStateT where
  ana_state : List Nat := []
deriving DecidableEq

/-- Gateway state stored in the cluster map (C++ `GW_STATE_T`). Modelled from
the spec where the struct definition is in a header not under src/: fields
`groupId`, `availability`, `subsystems`; default construction gives an empty
subsystem map (as for a default-constructed `std::map`). -/
structure GW_STATE_T where
  group_id : Nat := 0
  availability : GW_AVAILABILITY_E := .GW_CREATED
  subsystems : List (NQN_T × SubsystemStateT) := []
deriving DecidableEq

/-- Per-group gateway map (C++ `GWMAP`): gateway id to gateway state. -/
abbrev GWMAP := List (GW_ID_T × GW_STATE_T)

/-- Whole cluster map (C++ `std::map<GROUP_KEY, GWMAP>`). -/
abbrev MonGwMap := List (GROUP_KEY × GWMAP)

/-- Association-list lookup, embedding `std::map::find`: returns the value of
the first entry whose key matches (a `std::map` has at most one). -/
def mapFind {α β : Type} [DecidableEq α] (k : α) : List (α × β) → Option β
  | [] => none
  | kv :: rest => if kv.1 = k then some kv.2 else mapFind k rest

/-- Embeds the file-static `get_gw_state`: look up `group_key` in the cluster
map, then `gw_id` in that group; `none` when either find fails (the C++
returns `false` and leaves the out-parameter default-constructed). -/
def get_gw_state (m : MonGwMap) (group_key : GROUP_KEY) (gw_id : GW_ID_T) :
    Option GW_STATE_T :=
  match mapFind group_key m with
  | none => none
  | some gw_group => mapFind gw_id gw_group

/-- Binary exported ANA state sent to the gateway (protobuf `OPTIMIZED` /
`INACCESSIBLE`). -/
inductive AnaExportedState where
  | OPTIMIZED
  | INACCESSIBLE
deriving DecidableEq

/-- One change record (protobuf `ana_group_state`): 1-based group id and the
collapsed exported state. -/
structure AnaGroupState where
  grp_id : Nat
  state : AnaExportedState
deriving DecidableEq

/-- Per-subsystem batch of change records (protobuf `nqn_ana_states`). -/
structure NqnAnaStates where
  nqn : NQN_T
  states : List AnaGroupState
deriving DecidableEq

/-- The overall change-set (protobuf `ana_info`): list of non-empty
per-subsystem batches. -/
abbrev AnaInfo := List NqnAnaStates

/-- The collapse at line 333 of the source: the ternary
`new_group_state == GW_EXPORTED_OPTIMIZED_STATE ? OPTIMIZED : INACCESSIBLE`. -/
def collapseAnaState (new_group_state : Nat) : AnaExportedState :=
  if new_group_state = GW_EXPORTED_OPTIMIZED_STATE then .OPTIMIZED
  else .INACCESSIBLE

/-- Body of the inner diff loop for one `(ana_grp_index, new_group_state)`
pair of a new subsystem's `ana_state` sequence: skip (`none`) exactly when the
old gateway state was found, contains the same nqn, and its `ana_state` at
the same index reads back (in bounds) the same raw value; otherwise emit the
record with 1-based group id and collapsed state. The C++ indexes the old
sequence unconditionally with `operator[]`; the embedding totalises that read
as `l[i]?`, so an out-of-bounds old read compares unequal and emits. -/
def subsystemStatesDiffEntry (got_old_gw_state : Bool)
    (old_gw_state : GW_STATE_T) (nqn : NQN_T) (p : Nat × Nat) :
    Option AnaGroupState :=
  let old_nqn_state? := mapFind nqn old_gw_state.subsystems
  if got_old_gw_state ∧ old_nqn_state?.isSome ∧
      (old_nqn_state?.getD {}).ana_state[p.1]? = some p.2 then
    none
  else
    some { grp_id := p.1 + 1, state := collapseAnaState p.2 }

/-- Inner diff loop (source lines 321-336): iterate `ana_grp_index` over the
new subsystem's `ana_state` sequence, collecting the emitted records. -/
def subsystemStatesDiff (got_old_gw_state : Bool) (old_gw_state : GW_STATE_T)
    (nqn : NQN_T) (sub : SubsystemStateT) : List AnaGroupState :=
  sub.ana_state.enum.filterMap
    (subsystemStatesDiffEntry got_old_gw_state old_gw_state nqn)

/-- Outer diff loop (source lines 315-338): for every subsystem of the new
gateway state, compute its batch; a batch joins the change-set only when
non-empty (`if (nas.states_size()) ai.mutable_states()->Add(...)`). -/
def anaInfoDiff (got_old_gw_state : Bool)
    (old_gw_state new_gw_state : GW_STATE_T) : AnaInfo :=
  new_gw_state.subsystems.filterMap fun nqn_state_pair =>
    let states := subsystemStatesDiff got_old_gw_state old_gw_state
      nqn_state_pair.1 nqn_state_pair.2
    if states.length ≠ 0 then some { nqn := nqn_state_pair.1, states := states }
    else none

/-- Observable RPC activity of one `handle_nvmeof_gw_map` call: a
`set_group_id` or `set_ana_state` gRPC attempt with its boolean result, or the
`usleep` between failed attempts. -/
inductive RPCEvent where
  | setGroupIdCall (grp_id : Nat) (ok : Bool)
  | setAnaStateCall (ai : AnaInfo) (ok : Bool)
  | usleep (usec : Nat)
deriving DecidableEq

/-- The first-join retry loop (source lines 301-312): attempts fail
`failures` times, each failure followed by `usleep(1000)`, and the loop exits
on the first success. -/
def setGroupIdLoop (grp_id : Nat) : Nat → List RPCEvent
  | 0 => [.setGroupIdCall grp_id true]
  | failures + 1 =>
      .setGroupIdCall grp_id false :: .usleep 1000 :: setGroupIdLoop grp_id failures

/-- The change-delivery retry loop (source lines 342-351), same structure. -/
def setAnaStateLoop (ai : AnaInfo) : Nat → List RPCEvent
  | 0 => [.setAnaStateCall ai true]
  | failures + 1 =>
      .setAnaStateCall ai false :: .usleep 1000 :: setAnaStateLoop ai failures

/-- Control flow of `handle_nvmeof_gw_map` after the two lookups, as the RPC
event trace. Mirrors: early return when neither old nor new state was found;
the `set_group_id` retry loop when only the old state is missing (the new
state exists on this path); then the diff and, when the change-set is
non-empty, the `set_ana_state` retry loop. `old?.getD {}` / `new?.getD {}`
model the default-constructed out-parameters left untouched on lookup
failure. -/
def reconcileEvents (old? new? : Option GW_STATE_T)
    (gid_failures ana_failures : Nat) : List RPCEvent :=
  let old_gw_state := old?.getD {}
  let new_gw_state := new?.getD {}
  if old?.isNone ∧ new?.isNone then []
  else
    (if old?.isNone then setGroupIdLoop new_gw_state.group_id gid_failures
     else [])
    ++ (let ai := anaInfoDiff old?.isSome old_gw_state new_gw_state
        if ai.length ≠ 0 then setAnaStateLoop ai ana_failures else [])

/-- The agent state used by the handler and the beacon: the fixed identity
fields `name`, `pool`, `group` and the mutable last-applied map `map`. -/
structure GwState where
  name : GW_ID_T
  pool : String
  group : String
  map : MonGwMap
deriving DecidableEq

/-- Embeds `NVMeofGw::handle_nvmeof_gw_map` (source lines 285-354): look up
the old and new gateway states for this agent's own `(pool, group)` key and
name, produce the RPC event trace, and return the successor agent state. On
the early-return path (neither state found) the state is unchanged; on every
other path the last-applied map is unconditionally replaced by `new_map`
(line 353). `gid_failures` / `ana_failures` give the number of failed
attempts each retry loop observes before its first success. -/
def handle_nvmeof_gw_map (s : GwState) (new_map : MonGwMap)
    (gid_failures ana_failures : Nat) : List RPCEvent × GwState :=
  let group_key := (s.pool, s.group)
  let old? := get_gw_state s.map group_key s.name
  let new? := get_gw_state new_map group_key s.name
  (reconcileEvents old? new? gid_failures ana_failures,
   if old?.isNone ∧ new?.isNone then s else { s with map := new_map })

/-- Collects the `Option` results of every read of an old subsystem's
`ana_state` performed by the diff of one new subsystem: the C++ reads
`old_nqn_state_pair->second.ana_state[ana_grp_index]` exactly when
`got_old_gw_state && found_old_nqn_state` (short-circuit), at every index of
the new subsystem's sequence; `none` marks an out-of-bounds read. -/
def subsystemOldReads (got_old_gw_state : Bool) (old_gw_state : GW_STATE_T)
    (nqn : NQN_T) (sub : SubsystemStateT) : List (Option Nat) :=
  sub.ana_state.enum.filterMap fun p =>
    let old_nqn_state? := mapFind nqn old_gw_state.subsystems
    if got_old_gw_state ∧ old_nqn_state?.isSome then
      some ((old_nqn_state?.getD {}).ana_state[p.1]?)
    else none

/-- All old-`ana_state` reads performed by the whole diff. -/
def anaOldReads (got_old_gw_state : Bool)
    (old_gw_state new_gw_state : GW_STATE_T) : List (Option Nat) :=
  new_gw_state.subsystems.flatMap fun nqn_state_pair =>
    subsystemOldReads got_old_gw_state old_gw_state
      nqn_state_pair.1 nqn_state_pair.2

/-- All old-`ana_state` reads performed by one `handle_nvmeof_gw_map` call,
after the same two lookups the handler performs. -/
def handleOldReads (s : GwState) (new_map : MonGwMap) : List (Option Nat) :=
  let group_key := (s.pool, s.group)
  let old? := get_gw_state s.map group_key s.name
  let new? := get_gw_state new_map group_key s.name
  anaOldReads old?.isSome (old?.getD {}) (new?.getD {})

/-- Recognises a `set_group_id` gRPC attempt in a trace. -/
def isSetGroupIdCall : RPCEvent → Bool
  | .setGroupIdCall _ _ => true
  | _ => false

/-- Recognises a `set_ana_state` gRPC attempt in a trace. -/
def isSetAnaStateCall : RPCEvent → Bool
  | .setAnaStateCall _ _ => true
  | _ => false

/-- Beacon namespace record (`BeaconNamespace`): anagrpid and nonce. -/
structure BeaconNamespace where
  anagrpid : Nat
  nonce : String
deriving DecidableEq

/-- Beacon listener record (`BeaconListener`): the code fills the address
family with the literal "fake" (see the FIXME at source line 218). -/
structure BeaconListener where
  address_family : String
  address : String
  svcid : String
deriving DecidableEq

/-- Beacon subsystem record (`BeaconSubsystem`). -/
structure BeaconSubsystem where
  nqn : NQN_T
  namespaces : List BeaconNamespace := []
  listeners : List BeaconListener := []
deriving DecidableEq

/-- One namespace of a gRPC `get_subsystems` reply. -/
structure NamespaceInfo where
  anagrpid : Nat
  nonce : String
deriving DecidableEq

/-- One listen address of a gRPC `get_subsystems` reply. -/
structure ListenAddressInfo where
  traddr : String
  trsvcid : String
deriving DecidableEq

/-- One subsystem of a gRPC `get_subsystems` reply. -/
structure SubsystemInfo where
  nqn : NQN_T
  namespaces : List NamespaceInfo := []
  listen_addresses : List ListenAddressInfo := []
deriving DecidableEq

/-- The gRPC `get_subsystems` reply payload (C++ `subsystems_info`). -/
abbrev subsystems_info := List SubsystemInfo

/-- Translation of one reply subsystem into beacon form (source lines
207-223): pass through the nqn, the (anagrpid, nonce) pairs and the listen
addresses, with the hard-coded "fake" address family. -/
def beaconSubsystemOf (sub : SubsystemInfo) : BeaconSubsystem :=
  { nqn := sub.nqn,
    namespaces := sub.namespaces.map fun ns =>
      { anagrpid := ns.anagrpid, nonce := ns.nonce },
    listeners := sub.listen_addresses.map fun ls =>
      { address_family := "fake", address := ls.traddr, svcid := ls.trsvcid } }

/-- The outbound beacon message (`MNVMeofGwBeacon`). -/
structure MNVMeofGwBeacon where
  name : GW_ID_T
  pool : String
  group : String
  subs : List BeaconSubsystem
  availability : GW_AVAILABILITY_E
deriving DecidableEq

/-- Embeds the beacon construction of `NVMeofGw::send_beacon` (source lines
196-239). `ok` is the result of the `get_subsystems` query and
`gw_subsystems` its payload: the subsystem list is built only when the query
succeeded; availability starts at `GW_CREATED` and is upgraded to
`GW_AVAILABLE` / downgraded to `GW_UNAVAILABLE` only when this identity's
entry is found in the last-applied map. -/
def send_beacon (s : GwState) (ok : Bool) (gw_subsystems : subsystems_info) :
    MNVMeofGwBeacon :=
  let subs : List BeaconSubsystem :=
    if ok then gw_subsystems.map beaconSubsystemOf else []
  let group_key := (s.pool, s.group)
  let gw_availability :=
    if (get_gw_state s.map group_key s.name).isSome then
      (if ok then GW_AVAILABILITY_E.GW_AVAILABLE
       else GW_AVAILABILITY_E.GW_UNAVAILABLE)
    else GW_AVAILABILITY_E.GW_CREATED
  { name := s.name, pool := s.pool, group := s.group,
    subs := subs, availability := gw_availability }

/-- Observable activity of one beacon tick. -/
inductive BeaconEvent where
  | getSubsystemsCall (ok : Bool)
  | sendMonMessage (m : MNVMeofGwBeacon)
deriving DecidableEq

/-- Trace of one `send_beacon` call: exactly one `get_subsystems` query (with
result `ok`), then the beacon is sent unconditionally via
`monc.send_mon_message`; there is no early return and no retry in the tick. -/
def send_beacon_run (s : GwState) (ok : Bool) (gw_subsystems : subsystems_info) :
    List BeaconEvent :=
  [.getSubsystemsCall ok, .sendMonMessage (send_beacon s ok gw_subsystems)]

/-- Lookup finds exactly the entry witnessed by membership when the keys are
duplicate-free (as in a `std::map`). -/
theorem mapFind_eq_some_of_nodup {α β : Type} [DecidableEq α]
    {l : List (α × β)} (hnd : (l.map Prod.fst).Nodup) {a : α} {b : β}
    (hmem : (a, b) ∈ l) : mapFind a l = some b := by
  induction l with
  | nil => cases hmem
  | cons kv rest ih =>
      simp only [List.map_cons, List.nodup_cons] at hnd
      rcases List.mem_cons.mp hmem with h | h
      · rw [← h]
        simp [mapFind]
      · have hne : kv.1 ≠ a := by
          intro he
          exact hnd.1 (he ▸ List.mem_map_of_mem Prod.fst h)
        simp only [mapFind, hne, if_false]
        exact ih hnd.2 h

/-- Unfolds the `isSome`/`getD` phrasing of an option guard into an
existential. -/
theorem isSome_and_getD_iff {o : Option SubsystemStateT} {i v : Nat} :
    (o.isSome = true ∧ (o.getD {}).ana_state[i]? = some v) ↔
      ∃ old_sub, o = some old_sub ∧ old_sub.ana_state[i]? = some v := by
  cases o <;> simp

/-- Characterises the diff loop body: it returns `some rec` exactly when the
skip condition fails and `rec` is the emitted record for this index. -/
theorem subsystemStatesDiffEntry_eq_some_iff {got : Bool}
    {old_gw : GW_STATE_T} {nqn : NQN_T} {i v : Nat} {rec : AnaGroupState} :
    subsystemStatesDiffEntry got old_gw nqn (i, v) = some rec ↔
      (¬(got = true ∧ ∃ old_sub, mapFind nqn old_gw.subsystems = some old_sub ∧
            old_sub.ana_state[i]? = some v) ∧
        rec = { grp_id := i + 1, state := collapseAnaState v }) := by
  have hcond : ((got = true) ∧ (mapFind nqn old_gw.subsystems).isSome = true ∧
      ((mapFind nqn old_gw.subsystems).getD {}).ana_state[i]? = some v) ↔
      (got = true ∧ ∃ old_sub, mapFind nqn old_gw.subsystems = some old_sub ∧
        old_sub.ana_state[i]? = some v) :=
    and_congr_right fun _ => isSome_and_getD_iff
  unfold subsystemStatesDiffEntry
  by_cases h : (got = true) ∧ (mapFind nqn old_gw.subsystems).isSome = true ∧
      ((mapFind nqn old_gw.subsystems).getD {}).ana_state[i]? = some v
  · simp only [if_pos h]
    simp [hcond.mp h]
  · simp only [if_neg h]
    simp only [Option.some.injEq]
    constructor
    · intro he
      exact ⟨fun hc => h (hcond.mpr hc), he.symm⟩
    · intro ⟨_, he⟩
      exact he.symm

/-- Membership of the record for index `i` in one subsystem's batch is
exactly the negation of the skip condition. -/
theorem mem_subsystemStatesDiff_iff {got : Bool} {old_gw : GW_STATE_T}
    {nqn : NQN_T} {sub : SubsystemStateT} {i v : Nat}
    (hv : sub.ana_state[i]? = some v) :
    (({ grp_id := i + 1, state := collapseAnaState v } : AnaGroupState) ∈
        subsystemStatesDiff got old_gw nqn sub) ↔
      ¬(got = true ∧ ∃ old_sub, mapFind nqn old_gw.subsystems = some old_sub ∧
          old_sub.ana_state[i]? = some v) := by
  unfold subsystemStatesDiff
  rw [List.mem_filterMap]
  constructor
  · rintro ⟨⟨j, w⟩, hmem, hsome⟩
    rw [subsystemStatesDiffEntry_eq_some_iff] at hsome
    obtain ⟨hskip, hrec⟩ := hsome
    have hj : j = i := by
      have h1 := congrArg AnaGroupState.grp_id hrec
      simp at h1
      omega
    subst hj
    have hw : sub.ana_state[j]? = some w :=
      List.mk_mem_enum_iff_getElem?.mp hmem
    have hvw : w = v := by
      rw [hv] at hw
      exact (Option.some.injEq _ _).mp hw.symm
    subst hvw
    exact hskip
  · intro hns
    refine ⟨(i, v), List.mk_mem_enum_iff_getElem?.mpr hv, ?_⟩
    rw [subsystemStatesDiffEntry_eq_some_iff]
    exact ⟨hns, rfl⟩

/-- With duplicate-free subsystem keys, a record sits in some batch of the
overall change-set for `nqn` exactly when it sits in the batch the diff
computes for `nqn`'s own subsystem state. -/
theorem mem_anaInfoDiff_iff {got : Bool} {old_gw new_gw : GW_STATE_T}
    (hnd : (new_gw.subsystems.map Prod.fst).Nodup)
    {nqn : NQN_T} {sub : SubsystemStateT}
    (hmem : (nqn, sub) ∈ new_gw.subsystems) (rec : AnaGroupState) :
    (∃ nas ∈ anaInfoDiff got old_gw new_gw,
        nas.nqn = nqn ∧ rec ∈ nas.states) ↔
      rec ∈ subsystemStatesDiff got old_gw nqn sub := by
  unfold anaInfoDiff
  constructor
  · rintro ⟨nas, hin, hnqn, hrec⟩
    rw [List.mem_filterMap] at hin
    obtain ⟨⟨nqn', sub'⟩, hmem', hsome⟩ := hin
    by_cases hlen : (subsystemStatesDiff got old_gw nqn' sub').length ≠ 0
    · rw [if_pos hlen] at hsome
      injection hsome with hnas
      have hn' : nqn' = nqn := by rw [← hnas] at hnqn; exact hnqn
      subst hn'
      have h1 : mapFind nqn' new_gw.subsystems = some sub :=
        mapFind_eq_some_of_nodup hnd hmem
      have h2 : mapFind nqn' new_gw.subsystems = some sub' :=
        mapFind_eq_some_of_nodup hnd hmem'
      have hsub : sub' = sub := by
        rw [h1] at h2
        injection h2 with h3
        exact h3.symm
      subst hsub
      rw [← hnas] at hrec
      exact hrec
    · rw [if_neg hlen] at hsome
      cases hsome
  · intro hrec
    have hlen : (subsystemStatesDiff got old_gw nqn sub).length ≠ 0 := by
      intro h0
      rw [List.length_eq_zero] at h0
      rw [h0] at hrec
      cases hrec
    refine ⟨{ nqn := nqn, states := subsystemStatesDiff got old_gw nqn sub },
      ?_, rfl, hrec⟩
    rw [List.mem_filterMap]
    exact ⟨(nqn, sub), hmem, by simp [hlen]⟩

/-- Every record of a batch carries the 1-based group id of the index that
emitted it. -/
theorem grp_id_of_mem_filterMap_entry {got : Bool} {old_gw : GW_STATE_T}
    {nqn : NQN_T} {pairs : List (Nat × Nat)} {rec : AnaGroupState}
    (h : rec ∈ pairs.filterMap (subsystemStatesDiffEntry got old_gw nqn)) :
    ∃ q ∈ pairs, rec.grp_id = q.1 + 1 := by
  rw [List.mem_filterMap] at h
  obtain ⟨q, hq, hsome⟩ := h
  refine ⟨q, hq, ?_⟩
  have := (subsystemStatesDiffEntry_eq_some_iff (i := q.1) (v := q.2)).mp hsome
  rw [this.2]

/-- Group ids inside one batch are duplicate-free whenever the iterated
index/value pairs have duplicate-free indices. -/
theorem nodup_grp_ids_filterMap_entry {got : Bool} {old_gw : GW_STATE_T}
    {nqn : NQN_T} :
    ∀ pairs : List (Nat × Nat), (pairs.map Prod.fst).Nodup →
      ((pairs.filterMap (subsystemStatesDiffEntry got old_gw nqn)).map
        AnaGroupState.grp_id).Nodup := by
  intro pairs
  induction pairs with
  | nil => simp
  | cons p rest ih =>
      intro hnd
      simp only [List.map_cons, List.nodup_cons] at hnd
      rw [List.filterMap_cons]
      cases hcase : subsystemStatesDiffEntry got old_gw nqn p with
      | none => exact ih hnd.2
      | some rec =>
          simp only [List.map_cons, List.nodup_cons]
          refine ⟨?_, ih hnd.2⟩
          intro hin
          rw [List.mem_map] at hin
          obtain ⟨rec', hrec', heq⟩ := hin
          obtain ⟨q, hq, hgrp⟩ := grp_id_of_mem_filterMap_entry hrec'
          have hprec : rec.grp_id = p.1 + 1 := by
            have := (subsystemStatesDiffEntry_eq_some_iff
              (i := p.1) (v := p.2)).mp hcase
            rw [this.2]
          have hpq : p.1 = q.1 := by
            have : q.1 + 1 = p.1 + 1 := by rw [← hgrp, heq, hprec]
            exact (Nat.succ_injective this).symm
          exact hnd.1 (hpq ▸ List.mem_map_of_mem Prod.fst hq)

/-- Keys picked out of an association list by a key-preserving `filterMap`
form a sublist of the original keys. -/
theorem filterMap_map_key_sublist {α β γ : Type} (f : α × β → Option γ)
    (g : γ → α) (h : ∀ p c, f p = some c → g c = p.1) :
    ∀ l : List (α × β),
      List.Sublist ((l.filterMap f).map g) (l.map Prod.fst) := by
  intro l
  induction l with
  | nil => simp
  | cons p rest ih =>
      rw [List.filterMap_cons, List.map_cons]
      cases hc : f p with
      | none => exact ih.cons _
      | some c =>
          rw [List.map_cons, h p c hc]
          exact ih.cons₂ _

/-- Shape of the first-join retry loop: `failures` failed attempts, each
followed by the fixed `usleep 1000` delay, then the single success. -/
theorem setGroupIdLoop_eq (grp_id : Nat) :
    ∀ failures : Nat,
      setGroupIdLoop grp_id failures =
        (List.replicate failures
          [RPCEvent.setGroupIdCall grp_id false, RPCEvent.usleep 1000]).flatten
        ++ [RPCEvent.setGroupIdCall grp_id true] := by
  intro failures
  induction failures with
  | zero => simp [setGroupIdLoop]
  | succ f ih =>
      rw [setGroupIdLoop, ih]
      simp [List.replicate_succ]

/-- No event of the change-delivery retry loop is a `set_group_id` call. -/
theorem setAnaStateLoop_no_group_id (ai : AnaInfo) :
    ∀ failures : Nat, ∀ e ∈ setAnaStateLoop ai failures,
      isSetGroupIdCall e = false := by
  intro failures
  induction failures with
  | zero =>
      intro e he
      simp only [setAnaStateLoop, List.mem_singleton] at he
      rw [he]
      rfl
  | succ f ih =>
      intro e he
      rw [setAnaStateLoop] at he
      simp only [List.mem_cons] at he
      rcases he with he | he | he
      · rw [he]; rfl
      · rw [he]; rfl
      · exact ih e he

/-- No event of the first-join retry loop is a `set_ana_state` call. -/
theorem setGroupIdLoop_no_ana (grp_id : Nat) :
    ∀ failures : Nat, ∀ e ∈ setGroupIdLoop grp_id failures,
      isSetAnaStateCall e = false := by
  intro failures
  induction failures with
  | zero =>
      intro e he
      simp only [setGroupIdLoop, List.mem_singleton] at he
      rw [he]
      rfl
  | succ f ih =>
      intro e he
      rw [setGroupIdLoop] at he
      simp only [List.mem_cons] at he
      rcases he with he | he | he
      · rw [he]; rfl
      · rw [he]; rfl
      · exact ih e he

/-- Diffing a gateway state against itself emits nothing, provided its
subsystem keys are duplicate-free (as `std::map` keys are). -/
theorem anaInfoDiff_self_eq_nil {st : GW_STATE_T}
    (hnd : (st.subsystems.map Prod.fst).Nodup) :
    anaInfoDiff true st st = [] := by
  unfold anaInfoDiff
  rw [List.filterMap_eq_nil_iff]
  rintro ⟨nqn, sub⟩ hmem
  have hfind : mapFind nqn st.subsystems = some sub :=
    mapFind_eq_some_of_nodup hnd hmem
  have hbatch : subsystemStatesDiff true st nqn sub = [] := by
    unfold subsystemStatesDiff
    rw [List.filterMap_eq_nil_iff]
    rintro ⟨i, v⟩ hiv
    have hv : sub.ana_state[i]? = some v :=
      List.mk_mem_enum_iff_getElem?.mp hiv
    unfold subsystemStatesDiffEntry
    simp [hfind, hv]
  simp [hbatch]

/-- The diff against a default-constructed (empty-subsystems) new gateway
state is empty: the outer loop has nothing to iterate. -/
theorem anaInfoDiff_default_new (got : Bool) (old_gw : GW_STATE_T) :
    anaInfoDiff got old_gw {} = [] := rfl

/-- Claim C5: for every raw ana-state value, the exported state placed in a
change record is OPTIMIZED exactly when the raw value equals the designated
exported-optimized value, and INACCESSIBLE for every other raw value,
including raw values not otherwise enumerated. -/
theorem collapse_correctness (raw : Nat) :
    (collapseAnaState raw = .OPTIMIZED ↔ raw = GW_EXPORTED_OPTIMIZED_STATE) ∧
    (collapseAnaState raw = .INACCESSIBLE ↔ raw ≠ GW_EXPORTED_OPTIMIZED_STATE) := by
  unfold collapseAnaState
  by_cases h : raw = GW_EXPORTED_OPTIMIZED_STATE <;> simp [h]

/-- Claim C6: the beacon's availability is CREATED when this identity is
absent from the last-applied map (regardless of the query outcome), AVAILABLE
when present and the inventory query succeeded, and UNAVAILABLE when present
and the query failed. -/
theorem availability_derivation (s : GwState) (ok : Bool)
    (gw_subsystems : subsystems_info) :
    (send_beacon s ok gw_subsystems).availability =
      match get_gw_state s.map (s.pool, s.group) s.name with
      | none => GW_AVAILABILITY_E.GW_CREATED
      | some _ =>
          if ok then GW_AVAILABILITY_E.GW_AVAILABLE
          else GW_AVAILABILITY_E.GW_UNAVAILABLE := by
  cases h : get_gw_state s.map (s.pool, s.group) s.name <;>
    simp [send_beacon, h]

/-- Claim C9: on a beacon tick whose inventory query fails, the tick is not
aborted: the trace is exactly one (failed) query followed by the send of a
beacon whose subsystem list is empty — no retry within the tick. -/
theorem degraded_beacon_on_query_failure (s : GwState)
    (gw_subsystems : subsystems_info) :
    send_beacon_run s false gw_subsystems =
      [BeaconEvent.getSubsystemsCall false,
       BeaconEvent.sendMonMessage (send_beacon s false gw_subsystems)]
    ∧ (send_beacon s false gw_subsystems).subs = [] := by
  exact ⟨rfl, by simp [send_beacon]⟩

/-- Claim C7: whenever the new map contains an entry for this identity, the
reconciliation commits unconditionally: the last-applied map afterwards is
exactly the input map, in its entirety. -/
theorem commit_full_replacement (s : GwState) (new_map : MonGwMap)
    (ns : GW_STATE_T) (gid_failures ana_failures : Nat)
    (hnew : get_gw_state new_map (s.pool, s.group) s.name = some ns) :
    (handle_nvmeof_gw_map s new_map gid_failures ana_failures).2.map
      = new_map := by
  simp [handle_nvmeof_gw_map, hnew]

/-- Witness for C7 at a concrete input. -/
theorem commit_full_replacement_witness :
    get_gw_state [(("p", "g"), [("gw", { group_id := 3 : GW_STATE_T })])]
        ("p", "g") "gw" = some { group_id := 3 } ∧
    (handle_nvmeof_gw_map
        { name := "gw", pool := "p", group := "g",
          map := [(("p", "g"), [("gw", { group_id := 2 })])] }
        [(("p", "g"), [("gw", { group_id := 3 })])] 0 0).2.map
      = [(("p", "g"), [("gw", { group_id := 3 })])] :=
  ⟨by decide,
   commit_full_replacement
     { name := "gw", pool := "p", group := "g",
       map := [(("p", "g"), [("gw", { group_id := 2 })])] }
     [(("p", "g"), [("gw", { group_id := 3 })])]
     { group_id := 3 } 0 0 (by decide)⟩

/-- Claim C10: map entries of other gateway identities never drive this
agent's RPC calls: two reconciliations whose lookups at this agent's own
(pool, group) key and name agree — on the prior map and on the new map —
produce identical RPC traces and identical change-sets. -/
theorem other_entries_noninterference (s₁ s₂ : GwState) (m₁ m₂ : MonGwMap)
    (gid_failures ana_failures : Nat)
    (hold : get_gw_state s₁.map (s₁.pool, s₁.group) s₁.name
          = get_gw_state s₂.map (s₂.pool, s₂.group) s₂.name)
    (hnew : get_gw_state m₁ (s₁.pool, s₁.group) s₁.name
          = get_gw_state m₂ (s₂.pool, s₂.group) s₂.name) :
    (handle_nvmeof_gw_map s₁ m₁ gid_failures ana_failures).1
      = (handle_nvmeof_gw_map s₂ m₂ gid_failures ana_failures).1
    ∧ anaInfoDiff (get_gw_state s₁.map (s₁.pool, s₁.group) s₁.name).isSome
        ((get_gw_state s₁.map (s₁.pool, s₁.group) s₁.name).getD {})
        ((get_gw_state m₁ (s₁.pool, s₁.group) s₁.name).getD {})
      = anaInfoDiff (get_gw_state s₂.map (s₂.pool, s₂.group) s₂.name).isSome
        ((get_gw_state s₂.map (s₂.pool, s₂.group) s₂.name).getD {})
        ((get_gw_state m₂ (s₂.pool, s₂.group) s₂.name).getD {}) := by
  constructor
  · simp only [handle_nvmeof_gw_map]
    rw [hold, hnew]
  · rw [hold, hnew]

/-- Counterexample to claim C1 as stated: the new map has no entry for the
identity, yet because the old map does have one, the handler does not return
early — it falls through and replaces the last-applied map (line 353), so the
last-applied map after the call differs from the one before. -/
theorem missing_new_entry_counterexample :
    get_gw_state ([] : MonGwMap) ("p", "g") "gw" = none ∧
    (handle_nvmeof_gw_map
        { name := "gw", pool := "p", group := "g",
          map := [(("p", "g"), [("gw", { group_id := 3 })])] }
        [] 0 0).2.map
      ≠ [(("p", "g"), [("gw", { group_id := 3 })])] := by
  constructor
  · rfl
  · decide

/-- Claim C1 (amended): when the new map contains no entry for this identity,
no RPC call is made; if the old map also contains no entry the handler
returns early with the state unchanged, but if the old map does contain one
the handler still replaces the last-applied map with the new map. -/
theorem missing_new_entry_no_rpc (s : GwState) (new_map : MonGwMap)
    (gid_failures ana_failures : Nat)
    (hnew : get_gw_state new_map (s.pool, s.group) s.name = none) :
    (handle_nvmeof_gw_map s new_map gid_failures ana_failures).1 = []
    ∧ (handle_nvmeof_gw_map s new_map gid_failures ana_failures).2 =
        (if (get_gw_state s.map (s.pool, s.group) s.name).isNone then s
         else { s with map := new_map }) := by
  cases hold : get_gw_state s.map (s.pool, s.group) s.name with
  | none =>
      constructor
      · simp [handle_nvmeof_gw_map, reconcileEvents, hold, hnew]
      · simp [handle_nvmeof_gw_map, hold, hnew]
  | some st =>
      constructor
      · simp [handle_nvmeof_gw_map, reconcileEvents, hold, hnew,
          anaInfoDiff_default_new]
      · simp [handle_nvmeof_gw_map, hold, hnew]

/-- Witness for the amended C1 at a concrete input (old entry present, new
entry absent): no RPC events, map replaced. -/
theorem missing_new_entry_no_rpc_witness :
    get_gw_state ([] : MonGwMap) ("p", "g") "gw" = none ∧
    ((handle_nvmeof_gw_map
        { name := "gw", pool := "p", group := "g",
          map := [(("p", "g"), [("gw", { group_id := 3 })])] } [] 5 7).1 = []
     ∧ (handle_nvmeof_gw_map
        { name := "gw", pool := "p", group := "g",
          map := [(("p", "g"), [("gw", { group_id := 3 })])] } [] 5 7).2 =
        (if (get_gw_state
              [(("p", "g"), [("gw", { group_id := 3 })])] ("p", "g")
              "gw").isNone then
          ({ name := "gw", pool := "p", group := "g",
             map := [(("p", "g"), [("gw", { group_id := 3 })])] } : GwState)
         else { name := "gw", pool := "p", group := "g", map := [] })) :=
  ⟨by decide, missing_new_entry_no_rpc _ [] 5 7 (by decide)⟩

/-- Counterexample to claim C3 as stated: with the old entry present and its
subsystem's `ana_state` shorter than the new one's, the diff reads the old
sequence out of bounds (the totalised read returns `none`), so the reads are
not unconditionally in bounds. -/
theorem old_read_out_of_bounds :
    (none : Option Nat) ∈ handleOldReads
      { name := "gw", pool := "p", group := "g",
        map := [(("p", "g"),
          [("gw", { subsystems := [("nqn1", { ana_state := [0] })] })])] }
      [(("p", "g"),
        [("gw", { subsystems := [("nqn1", { ana_state := [0, 0] })] })])] := by
  decide

/-- Claim C3 (amended): under the explicit precondition that, for every
subsystem of the new entry also present in the old entry, the old `ana_state`
sequence is at least as long as the new one, every read of an old
subsystem's `ana_state` performed by the diff is in bounds (returns `some`). -/
theorem old_reads_in_bounds (s : GwState) (new_map : MonGwMap)
    (hlen : ∀ p ∈ ((get_gw_state new_map (s.pool, s.group) s.name).getD
        {}).subsystems,
      (mapFind p.1 ((get_gw_state s.map (s.pool, s.group) s.name).getD
          {}).subsystems).isSome = true →
        p.2.ana_state.length ≤
          ((mapFind p.1 ((get_gw_state s.map (s.pool, s.group) s.name).getD
              {}).subsystems).getD {}).ana_state.length) :
    ∀ r ∈ handleOldReads s new_map, r.isSome = true := by
  intro r hr
  simp only [handleOldReads, anaOldReads, subsystemOldReads,
    List.mem_flatMap, List.mem_filterMap] at hr
  obtain ⟨p, hp, ⟨i, v⟩, hiv, hsome⟩ := hr
  by_cases hc : ((get_gw_state s.map (s.pool, s.group) s.name).isSome = true ∧
      (mapFind p.1 ((get_gw_state s.map (s.pool, s.group) s.name).getD
          {}).subsystems).isSome = true)
  · rw [if_pos hc] at hsome
    injection hsome with hread
    have hlt : i < p.2.ana_state.length := by
      have hv : p.2.ana_state[i]? = some v :=
        List.mk_mem_enum_iff_getElem?.mp hiv
      obtain ⟨h1, -⟩ := List.getElem?_eq_some_iff.mp hv
      exact h1
    have hle := hlen p hp hc.2
    have hlt2 : i < ((mapFind p.1
        ((get_gw_state s.map (s.pool, s.group) s.name).getD
          {}).subsystems).getD {}).ana_state.length :=
      Nat.lt_of_lt_of_le hlt hle
    rw [← hread]
    simp [List.getElem?_eq_getElem hlt2]
  · rw [if_neg hc] at hsome
    cases hsome

/-- Witness for the amended C3 at a concrete input where the old sequence is
long enough: every old read is in bounds. -/
theorem old_reads_in_bounds_witness :
    (∀ p ∈ ((get_gw_state
        [(("p", "g"),
          [("gw", { subsystems := [("nqn1", { ana_state := [7] })] })])]
        (({ name := "gw", pool := "p", group := "g",
            map := [(("p", "g"),
              [("gw", { subsystems := [("nqn1", { ana_state := [5, 6] })] })])] }
          : GwState).pool,
         ({ name := "gw", pool := "p", group := "g",
            map := [(("p", "g"),
              [("gw", { subsystems := [("nqn1", { ana_state := [5, 6] })] })])] }
          : GwState).group)
        "gw").getD {}).subsystems,
      (mapFind p.1 ((get_gw_state
          [(("p", "g"),
            [("gw", { subsystems := [("nqn1", { ana_state := [5, 6] })] })])]
          ("p", "g") "gw").getD {}).subsystems).isSome = true →
        p.2.ana_state.length ≤
          ((mapFind p.1 ((get_gw_state
              [(("p", "g"),
                [("gw", { subsystems := [("nqn1", { ana_state := [5, 6] })] })])]
              ("p", "g") "gw").getD {}).subsystems).getD {}).ana_state.length)
    ∧ (∀ r ∈ handleOldReads
        { name := "gw", pool := "p", group := "g",
          map := [(("p", "g"),
            [("gw", { subsystems := [("nqn1", { ana_state := [5, 6] })] })])] }
        [(("p", "g"),
          [("gw", { subsystems := [("nqn1", { ana_state := [7] })] })])],
        r.isSome = true) :=
  ⟨by decide, old_reads_in_bounds _ _ (by decide)⟩

/-- Claim C4: on first-join (old entry absent, new entry present) the trace
is exactly `gid_failures` failed `set_group_id(newState.group_id)` attempts,
each followed by the fixed `usleep 1000` delay, then the single successful
attempt, and only then the rest of the cycle; no `set_ana_state` call occurs
before the success, and no further `set_group_id` call occurs after it. -/
theorem first_join_gating (s : GwState) (new_map : MonGwMap)
    (ns : GW_STATE_T) (gid_failures ana_failures : Nat)
    (hold : get_gw_state s.map (s.pool, s.group) s.name = none)
    (hnew : get_gw_state new_map (s.pool, s.group) s.name = some ns) :
    ∃ tail,
      (handle_nvmeof_gw_map s new_map gid_failures ana_failures).1 =
        (List.replicate gid_failures
          [RPCEvent.setGroupIdCall ns.group_id false,
           RPCEvent.usleep 1000]).flatten
        ++ RPCEvent.setGroupIdCall ns.group_id true :: tail
      ∧ (∀ e ∈ (List.replicate gid_failures
            [RPCEvent.setGroupIdCall ns.group_id false,
             RPCEvent.usleep 1000]).flatten, isSetAnaStateCall e = false)
      ∧ (∀ e ∈ tail, isSetGroupIdCall e = false) := by
  refine ⟨(if (anaInfoDiff false {} ns).length ≠ 0 then
      setAnaStateLoop (anaInfoDiff false {} ns) ana_failures else []),
    ?_, ?_, ?_⟩
  · have h1 : (handle_nvmeof_gw_map s new_map gid_failures ana_failures).1 =
        setGroupIdLoop ns.group_id gid_failures ++
          (if (anaInfoDiff false {} ns).length ≠ 0 then
            setAnaStateLoop (anaInfoDiff false {} ns) ana_failures else []) := by
      simp [handle_nvmeof_gw_map, reconcileEvents, hold, hnew]
    rw [h1, setGroupIdLoop_eq]
    simp [List.append_assoc]
  · intro e he
    rw [List.mem_flatten] at he
    obtain ⟨l, hl, hel⟩ := he
    have hleq := List.eq_of_mem_replicate hl
    subst hleq
    simp only [List.mem_cons, List.not_mem_nil, or_false] at hel
    rcases hel with h | h
    · rw [h]; rfl
    · rw [h]; rfl
  · intro e he
    by_cases hai : (anaInfoDiff false {} ns).length ≠ 0
    · rw [if_pos hai] at he
      exact setAnaStateLoop_no_group_id _ _ e he
    · rw [if_neg hai] at he
      cases he

/-- Witness for C4 at a concrete first-join input with two initial
`set_group_id` failures. -/
theorem first_join_gating_witness :
    get_gw_state ([] : MonGwMap) ("p", "g") "gw" = none ∧
    get_gw_state
      [(("p", "g"),
        [("gw", { group_id := 3,
                  subsystems := [("nqn1", { ana_state := [0] })] })])]
      ("p", "g") "gw"
      = some { group_id := 3, subsystems := [("nqn1", { ana_state := [0] })] } ∧
    (∃ tail,
      (handle_nvmeof_gw_map
        { name := "gw", pool := "p", group := "g", map := [] }
        [(("p", "g"),
          [("gw", { group_id := 3,
                    subsystems := [("nqn1", { ana_state := [0] })] })])]
        2 1).1 =
        (List.replicate 2
          [RPCEvent.setGroupIdCall
            ({ group_id := 3,
               subsystems := [("nqn1", { ana_state := [0] })] }
              : GW_STATE_T).group_id false,
           RPCEvent.usleep 1000]).flatten
        ++ RPCEvent.setGroupIdCall
            ({ group_id := 3,
               subsystems := [("nqn1", { ana_state := [0] })] }
              : GW_STATE_T).group_id true :: tail
      ∧ (∀ e ∈ (List.replicate 2
            [RPCEvent.setGroupIdCall
              ({ group_id := 3,
                 subsystems := [("nqn1", { ana_state := [0] })] }
                : GW_STATE_T).group_id false,
             RPCEvent.usleep 1000]).flatten, isSetAnaStateCall e = false)
      ∧ (∀ e ∈ tail, isSetGroupIdCall e = false)) :=
  ⟨by decide, by decide,
   first_join_gating
     { name := "gw", pool := "p", group := "g", map := [] }
     [(("p", "g"),
       [("gw", { group_id := 3,
                 subsystems := [("nqn1", { ana_state := [0] })] })])]
     { group_id := 3, subsystems := [("nqn1", { ana_state := [0] })] }
     2 1 (by decide) (by decide)⟩

/-- Claim C8: reconciling the same map twice in a row is idempotent — after
the first call commits `m`, the second call on `m` computes an empty
change-set, makes no RPC call at all, and still performs the unconditional
full commit, leaving the last-applied map equal to `m`. -/
theorem reconcile_idempotent (s : GwState) (m : MonGwMap) (ns : GW_STATE_T)
    (gf af gf' af' : Nat)
    (hnew : get_gw_state m (s.pool, s.group) s.name = some ns)
    (hnd : (ns.subsystems.map Prod.fst).Nodup) :
    (handle_nvmeof_gw_map (handle_nvmeof_gw_map s m gf af).2 m gf' af').1 = []
    ∧ (handle_nvmeof_gw_map
        (handle_nvmeof_gw_map s m gf af).2 m gf' af').2.map = m
    ∧ anaInfoDiff true ns ns = [] := by
  have hdiff : anaInfoDiff true ns ns = [] := anaInfoDiff_self_eq_nil hnd
  have hs2 : (handle_nvmeof_gw_map s m gf af).2 = { s with map := m } := by
    simp [handle_nvmeof_gw_map, hnew]
  rw [hs2]
  refine ⟨?_, ?_, hdiff⟩
  · simp [handle_nvmeof_gw_map, reconcileEvents, hnew, hdiff]
  · simp [handle_nvmeof_gw_map, hnew]

/-- Witness for C8 at a concrete input. -/
theorem reconcile_idempotent_witness :
    get_gw_state
        [(("p", "g"),
          [("gw", { subsystems := [("nqn1", { ana_state := [0, 5] })] })])]
        ("p", "g") "gw"
      = some { subsystems := [("nqn1", { ana_state := [0, 5] })] } ∧
    ((({ subsystems := [("nqn1", { ana_state := [0, 5] })] }
        : GW_STATE_T).subsystems.map Prod.fst).Nodup) ∧
    ((handle_nvmeof_gw_map
        (handle_nvmeof_gw_map
          { name := "gw", pool := "p", group := "g", map := [] }
          [(("p", "g"),
            [("gw", { subsystems := [("nqn1", { ana_state := [0, 5] })] })])]
          0 0).2
        [(("p", "g"),
          [("gw", { subsystems := [("nqn1", { ana_state := [0, 5] })] })])]
        0 0).1 = []
     ∧ (handle_nvmeof_gw_map
        (handle_nvmeof_gw_map
          { name := "gw", pool := "p", group := "g", map := [] }
          [(("p", "g"),
            [("gw", { subsystems := [("nqn1", { ana_state := [0, 5] })] })])]
          0 0).2
        [(("p", "g"),
          [("gw", { subsystems := [("nqn1", { ana_state := [0, 5] })] })])]
        0 0).2.map =
        [(("p", "g"),
          [("gw", { subsystems := [("nqn1", { ana_state := [0, 5] })] })])]
     ∧ anaInfoDiff true
        { subsystems := [("nqn1", { ana_state := [0, 5] })] }
        { subsystems := [("nqn1", { ana_state := [0, 5] })] } = []) :=
  ⟨by decide, by decide,
   reconcile_idempotent
     { name := "gw", pool := "p", group := "g", map := [] }
     [(("p", "g"),
       [("gw", { subsystems := [("nqn1", { ana_state := [0, 5] })] })])]
     { subsystems := [("nqn1", { ana_state := [0, 5] })] }
     0 0 0 0 (by decide) (by decide)⟩

/-- Claim C2: for every subsystem of the new entry and every index of its
`anaState` sequence, the change record with that nqn, group id `i + 1` and the
collapsed new value is emitted if and only if it is not the case that the old
entry exists, contains the same subsystem, has index `i` present in its
sequence, and agrees with the new value there. Moreover each batch is
non-empty with duplicate-free group ids, and batch nqns are duplicate-free,
so each (nqn, group id) pair occurs at most once in the change-set. -/
theorem ana_change_record_emitted_iff (got_old : Bool)
    (old_gw new_gw : GW_STATE_T)
    (hnd : (new_gw.subsystems.map Prod.fst).Nodup)
    (nqn : NQN_T) (sub : SubsystemStateT)
    (hmem : (nqn, sub) ∈ new_gw.subsystems)
    (i v : Nat) (hv : sub.ana_state[i]? = some v) :
    ((∃ nas ∈ anaInfoDiff got_old old_gw new_gw, nas.nqn = nqn ∧
        ({ grp_id := i + 1, state := collapseAnaState v } : AnaGroupState)
          ∈ nas.states) ↔
      ¬(got_old = true ∧
        ∃ old_sub, mapFind nqn old_gw.subsystems = some old_sub ∧
          old_sub.ana_state[i]? = some v))
    ∧ (∀ nas ∈ anaInfoDiff got_old old_gw new_gw,
        (nas.states.map AnaGroupState.grp_id).Nodup ∧ nas.states ≠ [])
    ∧ ((anaInfoDiff got_old old_gw new_gw).map NqnAnaStates.nqn).Nodup := by
  refine ⟨?_, ?_, ?_⟩
  · rw [mem_anaInfoDiff_iff hnd hmem]
    exact mem_subsystemStatesDiff_iff hv
  · intro nas hnas
    unfold anaInfoDiff at hnas
    rw [List.mem_filterMap] at hnas
    obtain ⟨⟨nqn', sub'⟩, hmem', hsome⟩ := hnas
    by_cases hlen : (subsystemStatesDiff got_old old_gw nqn' sub').length ≠ 0
    · rw [if_pos hlen] at hsome
      injection hsome with hnas2
      constructor
      · rw [← hnas2]
        unfold subsystemStatesDiff
        exact nodup_grp_ids_filterMap_entry _ (List.nodup_enum_map_fst _)
      · rw [← hnas2]
        intro h0
        exact hlen (by simpa using congrArg List.length h0)
    · rw [if_neg hlen] at hsome
      cases hsome
  · unfold anaInfoDiff
    have hkey : ∀ (p : NQN_T × SubsystemStateT) (c : NqnAnaStates),
        (let states := subsystemStatesDiff got_old old_gw p.1 p.2
         if states.length ≠ 0 then some { nqn := p.1, states := states }
         else none) = some c → c.nqn = p.1 := by
      intro p c hpc
      by_cases hl : (subsystemStatesDiff got_old old_gw p.1 p.2).length ≠ 0
      · rw [if_pos hl] at hpc
        injection hpc with h
        rw [← h]
      · rw [if_neg hl] at hpc
        cases hpc
    exact List.Nodup.sublist
      (filterMap_map_key_sublist _ NqnAnaStates.nqn hkey new_gw.subsystems) hnd

/-- Witness for C2 at a concrete input: old and new maps identical except at
index 1 of subsystem "a". -/
theorem ana_change_record_emitted_iff_witness :
    ((({ subsystems := [("a", { ana_state := [0, 4] })] }
        : GW_STATE_T).subsystems.map Prod.fst).Nodup) ∧
    (("a", ({ ana_state := [0, 4] } : SubsystemStateT)) ∈
      ({ subsystems := [("a", { ana_state := [0, 4] })] }
        : GW_STATE_T).subsystems) ∧
    (({ ana_state := [0, 4] } : SubsystemStateT).ana_state[1]? = some 4) ∧
    (((∃ nas ∈ anaInfoDiff true
          { subsystems := [("a", { ana_state := [0, 3] })] }
          { subsystems := [("a", { ana_state := [0, 4] })] },
        nas.nqn = "a" ∧
        ({ grp_id := 1 + 1, state := collapseAnaState 4 } : AnaGroupState)
          ∈ nas.states) ↔
      ¬(true = true ∧
        ∃ old_sub, mapFind "a"
            ({ subsystems := [("a", { ana_state := [0, 3] })] }
              : GW_STATE_T).subsystems = some old_sub ∧
          old_sub.ana_state[1]? = some 4))
    ∧ (∀ nas ∈ anaInfoDiff true
          { subsystems := [("a", { ana_state := [0, 3] })] }
          { subsystems := [("a", { ana_state := [0, 4] })] },
        (nas.states.map AnaGroupState.grp_id).Nodup ∧ nas.states ≠ [])
    ∧ ((anaInfoDiff true
          { subsystems := [("a", { ana_state := [0, 3] })] }
          { subsystems := [("a", { ana_state := [0, 4] })] }).map
        NqnAnaStates.nqn).Nodup) :=
  ⟨by decide, by decide, by decide,
   ana_change_record_emitted_iff true
     { subsystems := [("a", { ana_state := [0, 3] })] }
     { subsystems := [("a", { ana_state := [0, 4] })] }
     (by decide) "a" { ana_state := [0, 4] } (by decide) 1 4 (by decide)⟩

/-- Witness for C10 at concrete inputs: the two new maps differ in another
gateway's entry ("other") yet the traces and change-sets coincide. -/
theorem other_entries_noninterference_witness :
    (get_gw_state
        (({ name := "gw", pool := "p", group := "g", map := [] }
          : GwState)).map ("p", "g") "gw"
      = get_gw_state
        (({ name := "gw", pool := "p", group := "g", map := [] }
          : GwState)).map ("p", "g") "gw") ∧
    (get_gw_state
        [(("p", "g"),
          [("gw", { subsystems := [("nqn1", { ana_state := [0] })] }),
           ("other", { group_id := 9 })])]
        ("p", "g") "gw"
      = get_gw_state
        [(("p", "g"),
          [("gw", { subsystems := [("nqn1", { ana_state := [0] })] })])]
        ("p", "g") "gw") ∧
    ((handle_nvmeof_gw_map
        { name := "gw", pool := "p", group := "g", map := [] }
        [(("p", "g"),
          [("gw", { subsystems := [("nqn1", { ana_state := [0] })] }),
           ("other", { group_id := 9 })])] 1 1).1
      = (handle_nvmeof_gw_map
        { name := "gw", pool := "p", group := "g", map := [] }
        [(("p", "g"),
          [("gw", { subsystems := [("nqn1", { ana_state := [0] })] })])]
        1 1).1
    ∧ anaInfoDiff
        (get_gw_state
          (({ name := "gw", pool := "p", group := "g", map := [] }
            : GwState)).map ("p", "g") "gw").isSome
        ((get_gw_state
          (({ name := "gw", pool := "p", group := "g", map := [] }
            : GwState)).map ("p", "g") "gw").getD {})
        ((get_gw_state
          [(("p", "g"),
            [("gw", { subsystems := [("nqn1", { ana_state := [0] })] }),
             ("other", { group_id := 9 })])]
          ("p", "g") "gw").getD {})
      = anaInfoDiff
        (get_gw_state
          (({ name := "gw", pool := "p", group := "g", map := [] }
            : GwState)).map ("p", "g") "gw").isSome
        ((get_gw_state
          (({ name := "gw", pool := "p", group := "g", map := [] }
            : GwState)).map ("p", "g") "gw").getD {})
        ((get_gw_state
          [(("p", "g"),
            [("gw", { subsystems := [("nqn1", { ana_state := [0] })] })])]
          ("p", "g") "gw").getD {})) :=
  ⟨by decide, by decide,
   other_entries_noninterference
     { name := "gw", pool := "p", group := "g", map := [] }
     { name := "gw", pool := "p", group := "g", map := [] }
     [(("p", "g"),
       [("gw", { subsystems := [("nqn1", { ana_state := [0] })] }),
        ("other", { group_id := 9 })])]
     [(("p", "g"),
       [("gw", { subsystems := [("nqn1", { ana_state := [0] })] })])]
     1 1 (by decide) (by decide)⟩
